import Mathlib

/-!
Shallow embedding of `src/MotorController18.ino` (ChemE Car Motor
Controller v1.1): the calibration, voltage-check and run-state-machine
logic, together with proofs of the specified properties.

Modelling conventions:
* Arduino `unsigned long` timestamps are natural numbers; their
  subtraction is `usub32`, the wrap-around subtraction of 32-bit
  unsigned arithmetic.
* `millis()` is modelled as one timestamp `now` per control-loop cycle
  (the cycle is far shorter than a millisecond tick, and every claim
  speaks of per-cycle timestamps).
* Side effects of a cycle (servo attach/drive, detach/stop, and the
  `debug` diagnostics) are recorded as an explicit event list; the pin
  and servo writes of the drive happen exactly inside `attachAndWrite`
  (event `engage`) and `detachAndWrite` (event `disengage`).
* The float expression `int(vdrop_frac*base_light)` with
  `vdrop_frac = 0.8f` is modelled as `4 * b / 5` (natural division).
  This is exact for every attainable baseline `b ≤ 1023`: the binary32
  value of `0.8f` is `13421773/2^24 = 0.8 + δ` with `0 < δ < 1.2e-8`,
  so the exact product is `0.8*b + b*δ` with `b*δ < 1.3e-5`, the
  rounded float differs from `0.8*b` by less than `3.1e-5`, and is
  never below `0.8*b` when `0.8*b` is an integer (the product then
  exceeds the representable value `0.8*b`); since the fractional part
  of `0.8*b` is a multiple of `0.2`, truncation yields `⌊0.8*b⌋`.
* The analog-to-voltage conversion `analogToV` is modelled with exact
  rational arithmetic.
-/

namespace MotorController

/-- 32-bit unsigned subtraction (`unsigned long` difference on the
Arduino), total over `Nat` by reducing both operands mod `2^32`. -/
def usub32 (a b : Nat) : Nat := (a % 2 ^ 32 + 2 ^ 32 - b % 2 ^ 32) % 2 ^ 32

/-- `const int update_rate = 5000` (ms), throttles the light-level debug. -/
def update_rate : Nat := 5000

/-- Endpoint threshold `int(vdrop_frac*base_light)` with
`vdrop_frac = 0.8f`; see the header comment for the exactness of
`4 * b / 5` on the attainable range. -/
def threshold (b : Nat) : Nat := 4 * b / 5

/-- Observable side effects of one control-loop cycle. -/
inductive Event
  | engage                 -- `attachAndWrite()`: drive rail on, servos armed and driven
  | disengage              -- `detachAndWrite()`: servos neutral and released, rail off
  | startDiag              -- `debug(3, "Starting run at ...")`
  | abortDiag              -- `debug(3, "Run Aborted")`
  | endDiag (elapsed : Nat) -- `debug(3, "Ending run ... Run Time is <elapsed> ...")`
  | lightDiag              -- `debug(1, "Light level: ...")` (rate limited)
deriving DecidableEq

/-- The mutable globals of the sketch that the loop reads and writes. -/
structure CarState where
  run_car      : Bool  -- `bool run_car`
  color_change : Bool  -- `bool color_change`
  run_time     : Nat   -- `unsigned long run_time`
  update_time  : Nat   -- `unsigned long update_time`
deriving DecidableEq

/-- Per-cycle inputs of `loop()`: the start switch, the photoresistor
reading, and the current `millis()` timestamp. -/
structure Input where
  switchOn : Bool -- `digitalRead(dp_swton) == HIGH`
  light    : Nat  -- `analogRead(ap_photo)`
  now      : Nat  -- `millis()`
deriving DecidableEq

/-- Globals at the end of `setup()`: cleared flags and zeroed timers. -/
def initState : CarState :=
  { run_car := false, color_change := false, run_time := 0, update_time := 0 }

/-- Lines 179-189 of `loop()`: switch handling.  Start branch: if not
running, not stopped and the switch is high, set `run_car`, engage, and
stamp `run_time`.  Else, if not stopped and the switch is low, clear
the timer, emit the abort diagnostic when a run was in progress, clear
`run_car` and disengage. -/
def switchPhase (s : CarState) (i : Input) : CarState × List Event :=
  if !s.run_car && !s.color_change && i.switchOn then
    ({ s with run_car := true, run_time := i.now },
     [Event.engage, Event.startDiag])
  else if !s.color_change && !i.switchOn then
    ({ s with run_time := 0, run_car := false },
     (if s.run_car then [Event.abortDiag] else []) ++ [Event.disengage])
  else (s, [])

/-- Lines 192-196 of `loop()`: the rate-limited light-level debug
message, updating `update_time` when it fires. -/
def lightDebugPhase (s : CarState) (i : Input) : CarState × List Event :=
  if usub32 i.now s.update_time > update_rate then
    ({ s with update_time := i.now }, [Event.lightDiag])
  else (s, [])

/-- Lines 198-207 of `loop()`: endpoint detection.  If running and the
light reading is below the threshold, stop for good: clear `run_car`,
latch `color_change`, disengage, emit the elapsed-run diagnostic and
zero `run_time`. -/
def endpointPhase (base : Nat) (s : CarState) (i : Input) : CarState × List Event :=
  if s.run_car && decide (i.light < threshold base) then
    ({ s with run_car := false, color_change := true, run_time := 0 },
     [Event.disengage, Event.endDiag (usub32 i.now s.run_time)])
  else (s, [])

/-- One full iteration of `loop()` with baseline `base`: switch
handling, then the light read and rate-limited debug, then endpoint
detection, in source order. -/
def loopStep (base : Nat) (s : CarState) (i : Input) : CarState × List Event :=
  let p1 := switchPhase s i
  let p2 := lightDebugPhase p1.1 i
  let p3 := endpointPhase base p2.1 i
  (p3.1, p1.2 ++ p2.2 ++ p3.2)

/-- State after running the loop over a list of per-cycle inputs. -/
def runState (base : Nat) (s : CarState) (inputs : List Input) : CarState :=
  inputs.foldl (fun s i => (loopStep base s i).1) s

/-- Per-cycle trace: the state at the end of each cycle together with
the events of that cycle. -/
def runTrace (base : Nat) (s : CarState) : List Input → List (CarState × List Event)
  | [] => []
  | i :: rest =>
    let p := loopStep base s i
    p :: runTrace base p.1 rest

/-- The spec's `VehicleState`: `Stopped` iff the color change latched,
else `Running` iff `run_car`, else `Idle`. -/
inductive VState
  | Idle
  | Running
  | Stopped
deriving DecidableEq

/-- Abstraction of the two booleans to the spec's `VehicleState`. -/
def vehicleState (s : CarState) : VState :=
  if s.color_change then VState.Stopped
  else if s.run_car then VState.Running
  else VState.Idle

/-- Number of occurrences of an event in a cycle's event list. -/
def countEv (e : Event) (l : List Event) : Nat :=
  (l.filter (fun x => decide (x = e))).length

/-- All events of a trace, in order. -/
def traceEvents (tr : List (CarState × List Event)) : List Event :=
  tr.foldr (fun p acc => p.2 ++ acc) []

/-- The per-cycle `VehicleState` sequence of a trace. -/
def traceStates (tr : List (CarState × List Event)) : List VState :=
  tr.map (fun p => vehicleState p.1)

/-- Lines 128-136 of `setup()`: sum `n` photoresistor samples and take
the integer mean (`base_light = sum/setup_samples`). -/
def calibrate (sample : Nat → Nat) (n : Nat) : Nat :=
  ((List.range n).map sample).sum / n

/-- `const float div_const = 4.7/(10+4.7)`, exactly. -/
def div_const : ℚ := 4.7 / (10 + 4.7)

/-- `const float vbat_ok = 5.5`. -/
def vbat_ok : ℚ := 5.5

/-- `const float vpem_ok = 7`. -/
def vpem_ok : ℚ := 7

/-- `analogToV`: `((float(v)/1023)*5.0)/div_const`, exactly. -/
def analogToV (v : Nat) : ℚ := ((v : ℚ) / 1023 * 5) / div_const

/-- The rail comparison of lines 165 and 170: `true` (fault) iff the
converted voltage is strictly below the threshold. -/
def railFault (v thr : ℚ) : Bool := decide (v < thr)

/-- Indicator and diagnostic outcome of the startup voltage checks. -/
structure SetupHealth where
  batokHigh : Bool -- battery-OK indicator still high after the check
  pemokHigh : Bool -- fuel-cell-OK indicator still high after the check
  batDiag   : Bool -- low-battery diagnostic emitted
  pemDiag   : Bool -- low-fuel-cell diagnostic emitted
deriving DecidableEq

/-- Lines 159-173 of `setup()`: convert both rails and drive each
indicator low (with a diagnostic) exactly on fault.  Both indicators
were set high by the preceding flash sequence. -/
def voltageChecks (vbatRaw vpemRaw : Nat) : SetupHealth :=
  let batFault := railFault (analogToV vbatRaw) vbat_ok
  let pemFault := railFault (analogToV vpemRaw) vpem_ok
  { batokHigh := !batFault, pemokHigh := !pemFault,
    batDiag := batFault, pemDiag := pemFault }

/-- A whole session: startup voltage checks, calibration, then the
control loop over the given per-cycle inputs. -/
structure Session where
  health    : SetupHealth
  baseLight : Nat
  trace     : List (CarState × List Event)
deriving DecidableEq

/-- `setup()` followed by repeated `loop()`. -/
def runSession (sample : Nat → Nat) (n vbatRaw vpemRaw : Nat)
    (inputs : List Input) : Session :=
  { health := voltageChecks vbatRaw vpemRaw,
    baseLight := calibrate sample n,
    trace := runTrace (calibrate sample n) initState inputs }

/-- One drive servo: whether it is attached and its last commanded
position. -/
structure ServoM where
  attached : Bool
  pos      : Nat
deriving DecidableEq

/-- The drive actuators and the DC/DC converter rail. -/
structure DriveActuators where
  servo1    : ServoM
  servo2    : ServoM
  regonHigh : Bool
deriving DecidableEq

/-- `attachAndWrite()`: converter on; attach each servo only when not
already attached; drive servo1 to 180 and servo2 to 0.  Also returns
how many `attach` operations each servo underwent in this call. -/
def attachAndWrite (a : DriveActuators) : DriveActuators × Nat × Nat :=
  let r1 := if a.servo1.attached then (a.servo1, 0)
            else ({ a.servo1 with attached := true }, 1)
  let r2 := if a.servo2.attached then (a.servo2, 0)
            else ({ a.servo2 with attached := true }, 1)
  ({ servo1 := { r1.1 with pos := 180 },
     servo2 := { r2.1 with pos := 0 },
     regonHigh := true }, r1.2, r2.2)

/-- `detachAndWrite()`: neutral (90) on both servos, detach both, then
converter off. -/
def detachAndWrite (_ : DriveActuators) : DriveActuators :=
  { servo1 := { attached := false, pos := 90 },
    servo2 := { attached := false, pos := 90 },
    regonHigh := false }

/-- The input stream of the spec's end-to-end example: baseline 1000,
switch `[off,on,on,on]`, light `[1000,1000,1000,750]`, one millisecond
per cycle. -/
def c2inputs : List Input :=
  [⟨false, 1000, 0⟩, ⟨true, 1000, 1⟩, ⟨true, 1000, 2⟩, ⟨true, 750, 3⟩]

/-! ### Basic lemmas about the cycle phases -/

lemma usub32_self (a : Nat) : usub32 a a = 0 := by
  unfold usub32; omega

lemma usub32_eq_sub (a b : Nat) (h1 : b ≤ a) (h2 : a < 2 ^ 32) :
    usub32 a b = a - b := by
  unfold usub32; omega

lemma countEv_append (e : Event) (l1 l2 : List Event) :
    countEv e (l1 ++ l2) = countEv e l1 + countEv e l2 := by
  simp [countEv, List.filter_append]

lemma countEv_eq_zero (e : Event) (l : List Event) :
    countEv e l = 0 ↔ e ∉ l := by
  simp only [countEv, List.length_eq_zero, List.filter_eq_nil_iff]
  constructor
  · intro h he
    exact h e he (by simp)
  · intro h a ha hae
    rw [of_decide_eq_true hae] at ha
    exact h ha

lemma loopStep_eq (base : Nat) (s : CarState) (i : Input) :
    loopStep base s i =
      ((endpointPhase base (lightDebugPhase (switchPhase s i).1 i).1 i).1,
       (switchPhase s i).2 ++ (lightDebugPhase (switchPhase s i).1 i).2 ++
         (endpointPhase base (lightDebugPhase (switchPhase s i).1 i).1 i).2) := rfl

lemma runTrace_cons (base : Nat) (s : CarState) (i : Input) (rest : List Input) :
    runTrace base s (i :: rest) =
      loopStep base s i :: runTrace base (loopStep base s i).1 rest := rfl

lemma runState_cons (base : Nat) (s : CarState) (i : Input) (rest : List Input) :
    runState base s (i :: rest) = runState base (loopStep base s i).1 rest := rfl

lemma traceEvents_cons (p : CarState × List Event) (tr : List (CarState × List Event)) :
    traceEvents (p :: tr) = p.2 ++ traceEvents tr := rfl

lemma switchPhase_stopped (s : CarState) (i : Input) (h : s.color_change = true) :
    switchPhase s i = (s, []) := by
  simp [switchPhase, h]

lemma switchPhase_cc (s : CarState) (i : Input) :
    (switchPhase s i).1.color_change = s.color_change := by
  unfold switchPhase
  split
  · rfl
  · split <;> rfl

lemma lightDebugPhase_run_car (s : CarState) (i : Input) :
    (lightDebugPhase s i).1.run_car = s.run_car := by
  unfold lightDebugPhase; split <;> rfl

lemma lightDebugPhase_cc (s : CarState) (i : Input) :
    (lightDebugPhase s i).1.color_change = s.color_change := by
  unfold lightDebugPhase; split <;> rfl

lemma lightDebugPhase_run_time (s : CarState) (i : Input) :
    (lightDebugPhase s i).1.run_time = s.run_time := by
  unfold lightDebugPhase; split <;> rfl

lemma lightDebugPhase_events (s : CarState) (i : Input) :
    (lightDebugPhase s i).2 = [] ∨ (lightDebugPhase s i).2 = [Event.lightDiag] := by
  unfold lightDebugPhase
  split
  · exact Or.inr rfl
  · exact Or.inl rfl

lemma lightDebugPhase_count (s : CarState) (i : Input) (e : Event)
    (he : e ≠ Event.lightDiag) : countEv e (lightDebugPhase s i).2 = 0 := by
  rcases lightDebugPhase_events s i with h | h <;> rw [h] <;>
    simp [countEv, Ne.symm he]

lemma endpointPhase_not_running (base : Nat) (s : CarState) (i : Input)
    (h : s.run_car = false) : endpointPhase base s i = (s, []) := by
  simp [endpointPhase, h]

lemma endpointPhase_high (base : Nat) (s : CarState) (i : Input)
    (h : ¬ i.light < threshold base) : endpointPhase base s i = (s, []) := by
  simp [endpointPhase, h]

lemma endpointPhase_fires (base : Nat) (s : CarState) (i : Input)
    (h1 : s.run_car = true) (h2 : i.light < threshold base) :
    endpointPhase base s i =
      ({ s with run_car := false, color_change := true, run_time := 0 },
       [Event.disengage, Event.endDiag (usub32 i.now s.run_time)]) := by
  simp [endpointPhase, h1, h2]

lemma endpointPhase_cc_mono (base : Nat) (s : CarState) (i : Input)
    (h : s.color_change = true) : (endpointPhase base s i).1.color_change = true := by
  unfold endpointPhase
  split
  · rfl
  · exact h

lemma endpointPhase_no_engage (base : Nat) (s : CarState) (i : Input) :
    Event.engage ∉ (endpointPhase base s i).2 := by
  unfold endpointPhase
  split <;> simp

lemma vehicleState_eq_stopped (s : CarState) :
    vehicleState s = VState.Stopped ↔ s.color_change = true := by
  unfold vehicleState
  split
  · simp_all
  · split <;> simp_all

lemma vehicleState_idle (s : CarState) (h1 : s.color_change = false)
    (h2 : s.run_car = false) : vehicleState s = VState.Idle := by
  simp [vehicleState, h1, h2]

lemma vehicleState_running (s : CarState) (h1 : s.color_change = false)
    (h2 : s.run_car = true) : vehicleState s = VState.Running := by
  simp [vehicleState, h1, h2]

/-! ### The latching invariant and Stopped-state quiescence -/

/-- Once `color_change` is latched, a cycle keeps it latched and never
engages: both switch branches are gated on `!color_change`, and the
endpoint branch only re-latches. -/
lemma stopped_step (base : Nat) (s : CarState) (i : Input)
    (h : s.color_change = true) :
    (loopStep base s i).1.color_change = true ∧
      Event.engage ∉ (loopStep base s i).2 := by
  rw [loopStep_eq, switchPhase_stopped s i h]
  refine ⟨?_, ?_⟩
  · exact endpointPhase_cc_mono base _ i ((lightDebugPhase_cc s i).trans h)
  · rcases lightDebugPhase_events s i with hl | hl <;>
      have hep := endpointPhase_no_engage base (lightDebugPhase s i).1 i <;>
      simp_all

/-- In the latched state with `run_car` cleared, a cycle touches only
`update_time`: no branch fires, so there is no engage and no disengage
(hence no drive-rail or servo write at all). -/
lemma stopped_quiet_step (base : Nat) (s : CarState) (i : Input)
    (h1 : s.color_change = true) (h2 : s.run_car = false) :
    (loopStep base s i).1.color_change = true ∧
      (loopStep base s i).1.run_car = false ∧
      Event.engage ∉ (loopStep base s i).2 ∧
      Event.disengage ∉ (loopStep base s i).2 := by
  rw [loopStep_eq, switchPhase_stopped s i h1]
  rw [endpointPhase_not_running base _ i ((lightDebugPhase_run_car s i).trans h2)]
  refine ⟨(lightDebugPhase_cc s i).trans h1, (lightDebugPhase_run_car s i).trans h2, ?_, ?_⟩ <;>
    rcases lightDebugPhase_events s i with hl | hl <;> simp_all

/-- The latching branch is the only writer of `color_change`, and it
also clears `run_car`; switch branches cannot set `run_car` while
latched.  Hence the invariant: latched implies not running. -/
lemma endpointPhase_inv (base : Nat) (s : CarState) (i : Input)
    (h : s.color_change = true → s.run_car = false) :
    (endpointPhase base s i).1.color_change = true →
      (endpointPhase base s i).1.run_car = false := by
  unfold endpointPhase
  split
  · intro _; rfl
  · exact h

lemma switchPhase_inv (s : CarState) (i : Input)
    (h : s.color_change = true → s.run_car = false) :
    (switchPhase s i).1.color_change = true →
      (switchPhase s i).1.run_car = false := by
  unfold switchPhase
  split
  · intro hcc; simp_all
  · split
    · intro _; rfl
    · exact h

lemma inv_step (base : Nat) (s : CarState) (i : Input)
    (h : s.color_change = true → s.run_car = false) :
    (loopStep base s i).1.color_change = true →
      (loopStep base s i).1.run_car = false := by
  rw [loopStep_eq]
  refine endpointPhase_inv base _ i (fun hc => ?_)
  rw [lightDebugPhase_run_car]
  rw [lightDebugPhase_cc] at hc
  exact switchPhase_inv s i h hc

/-- The invariant holds along every run from the reset state. -/
lemma inv_runState_aux (base : Nat) (inputs : List Input) :
    ∀ s : CarState, (s.color_change = true → s.run_car = false) →
      ((runState base s inputs).color_change = true →
        (runState base s inputs).run_car = false) := by
  induction inputs with
  | nil => intro s hs; exact hs
  | cons i rest ih =>
      intro s hs
      rw [runState_cons]
      exact ih _ (inv_step base s i hs)

lemma inv_runState (base : Nat) (inputs : List Input) :
    (runState base initState inputs).color_change = true →
      (runState base initState inputs).run_car = false := by
  refine inv_runState_aux base inputs initState (fun h => ?_)
  simp [initState] at h

/-- Trace form of the latching property: from a latched state, no cycle
ever emits `engage` and every cycle ends latched. -/
lemma trace_stopped (base : Nat) (inputs : List Input) :
    ∀ s : CarState, s.color_change = true →
      countEv Event.engage (traceEvents (runTrace base s inputs)) = 0 ∧
      traceStates (runTrace base s inputs) =
        List.replicate inputs.length VState.Stopped := by
  induction inputs with
  | nil => intro s _; simp [runTrace, traceEvents, traceStates, countEv]
  | cons i rest ih =>
      intro s hs
      obtain ⟨h1, h2⟩ := stopped_step base s i hs
      obtain ⟨ih1, ih2⟩ := ih (loopStep base s i).1 h1
      rw [runTrace_cons]
      constructor
      · rw [traceEvents_cons, countEv_append, ih1,
          (countEv_eq_zero Event.engage _).mpr h2]
      · simp only [traceStates, List.map_cons, List.length_cons,
          List.replicate_succ]
        rw [(vehicleState_eq_stopped _).mpr h1]
        exact congrArg _ ih2

/-- Trace form of quiescence: from a latched, non-running state, no
cycle emits `engage` or `disengage` and every cycle ends latched. -/
lemma trace_quiet (base : Nat) (inputs : List Input) :
    ∀ s : CarState, s.color_change = true → s.run_car = false →
      countEv Event.engage (traceEvents (runTrace base s inputs)) = 0 ∧
      countEv Event.disengage (traceEvents (runTrace base s inputs)) = 0 ∧
      traceStates (runTrace base s inputs) =
        List.replicate inputs.length VState.Stopped := by
  induction inputs with
  | nil => intro s _ _; simp [runTrace, traceEvents, traceStates, countEv]
  | cons i rest ih =>
      intro s hs hr
      obtain ⟨h1, h2, h3, h4⟩ := stopped_quiet_step base s i hs hr
      obtain ⟨ih1, ih2, ih3⟩ := ih (loopStep base s i).1 h1 h2
      rw [runTrace_cons]
      refine ⟨?_, ?_, ?_⟩
      · rw [traceEvents_cons, countEv_append, ih1,
          (countEv_eq_zero Event.engage _).mpr h3]
      · rw [traceEvents_cons, countEv_append, ih2,
          (countEv_eq_zero Event.disengage _).mpr h4]
      · simp only [traceStates, List.map_cons, List.length_cons,
          List.replicate_succ]
        rw [(vehicleState_eq_stopped _).mpr h1]
        exact congrArg _ ih3

/-! ### Claim theorems -/

/-- C1.  Latching invariant: for every input sequence that brings the
vehicle state to `Stopped`, every further input sequence produces no
`engage()` (`attachAndWrite`) call in any cycle, and every subsequent
per-cycle state is still `Stopped`. -/
theorem c1_latching (base : Nat) (inputs1 inputs2 : List Input)
    (h : vehicleState (runState base initState inputs1) = VState.Stopped) :
    countEv Event.engage
        (traceEvents (runTrace base (runState base initState inputs1) inputs2)) = 0 ∧
      traceStates (runTrace base (runState base initState inputs1) inputs2) =
        List.replicate inputs2.length VState.Stopped :=
  trace_stopped base inputs2 _ ((vehicleState_eq_stopped _).mp h)

/-- Witness for C1 at baseline 1000: a first cycle with the switch on
and a dark reading latches `Stopped`; cycling the switch afterwards
re-arms nothing. -/
theorem c1_latching_witness :
    countEv Event.engage
        (traceEvents (runTrace 1000 (runState 1000 initState [⟨true, 0, 0⟩])
          [⟨true, 1000, 5⟩, ⟨false, 1000, 6⟩, ⟨true, 1000, 7⟩])) = 0 ∧
      traceStates (runTrace 1000 (runState 1000 initState [⟨true, 0, 0⟩])
          [⟨true, 1000, 5⟩, ⟨false, 1000, 6⟩, ⟨true, 1000, 7⟩]) =
        List.replicate ([⟨true, 1000, 5⟩, ⟨false, 1000, 6⟩,
          (⟨true, 1000, 7⟩ : Input)] : List Input).length VState.Stopped :=
  c1_latching 1000 [⟨true, 0, 0⟩] [⟨true, 1000, 5⟩, ⟨false, 1000, 6⟩, ⟨true, 1000, 7⟩]
    (by decide)

/-- C10.  Stopped-state quiescence: once a run from reset has reached
`Stopped`, every later cycle performs no actuation at all — no
`engage`, no `disengage` (the only operations that write the drive
rail or the drive servos) — and stays `Stopped`. -/
theorem c10_stopped_quiescent (base : Nat) (inputs1 inputs2 : List Input)
    (h : vehicleState (runState base initState inputs1) = VState.Stopped) :
    countEv Event.engage
        (traceEvents (runTrace base (runState base initState inputs1) inputs2)) = 0 ∧
      countEv Event.disengage
        (traceEvents (runTrace base (runState base initState inputs1) inputs2)) = 0 ∧
      traceStates (runTrace base (runState base initState inputs1) inputs2) =
        List.replicate inputs2.length VState.Stopped := by
  have hcc := (vehicleState_eq_stopped _).mp h
  exact trace_quiet base inputs2 _ hcc (inv_runState base inputs1 hcc)

/-- Witness for C10: same scenario as the C1 witness; afterwards not
even `disengage` fires. -/
theorem c10_stopped_quiescent_witness :
    countEv Event.engage
        (traceEvents (runTrace 1000 (runState 1000 initState [⟨true, 0, 1⟩])
          [⟨false, 100, 5⟩, ⟨true, 100, 6⟩])) = 0 ∧
      countEv Event.disengage
        (traceEvents (runTrace 1000 (runState 1000 initState [⟨true, 0, 1⟩])
          [⟨false, 100, 5⟩, ⟨true, 100, 6⟩])) = 0 ∧
      traceStates (runTrace 1000 (runState 1000 initState [⟨true, 0, 1⟩])
          [⟨false, 100, 5⟩, ⟨true, 100, 6⟩]) =
        List.replicate ([⟨false, 100, 5⟩, (⟨true, 100, 6⟩ : Input)] : List Input).length
          VState.Stopped :=
  c10_stopped_quiescent 1000 [⟨true, 0, 1⟩] [⟨false, 100, 5⟩, ⟨true, 100, 6⟩] (by decide)

/-- C2 counterexample.  On the spec's end-to-end example stream
(baseline 1000, switch `[off,on,on,on]`, light `[1000,1000,1000,750]`)
`disengage()` is NOT called exactly once: the switch-off branch already
calls `detachAndWrite()` in cycle 1 (the continuous ensure-disengaged
assertion of rule 2), so the run performs two `disengage()` calls. -/
theorem c2_counterexample :
    ¬ countEv Event.disengage (traceEvents (runTrace 1000 initState c2inputs)) = 1 := by
  decide

/-- C2 as amended.  The example run yields per-cycle states
`Idle, Running, Running, Stopped`, `engage()` exactly once (cycle 2),
and `disengage()` exactly twice: once in cycle 1 (switch-off
ensure-disengaged) and once in cycle 4 (endpoint stop). -/
theorem c2_run :
    traceStates (runTrace 1000 initState c2inputs) =
        [VState.Idle, VState.Running, VState.Running, VState.Stopped] ∧
      (runTrace 1000 initState c2inputs).map (fun p => countEv Event.engage p.2) =
        [0, 1, 0, 0] ∧
      (runTrace 1000 initState c2inputs).map (fun p => countEv Event.disengage p.2) =
        [1, 0, 0, 1] := by
  decide

/-- C5 counterexample.  From `Idle` with the switch activating while
the light is already below threshold (baseline 1000, reading 750), the
code disengages within the SAME cycle, not on the next cycle: the
single cycle already contains both the `engage` and the `disengage`,
and ends in `Stopped`. -/
theorem c5_counterexample :
    countEv Event.engage (loopStep 1000 initState ⟨true, 750, 0⟩).2 = 1 ∧
      countEv Event.disengage (loopStep 1000 initState ⟨true, 750, 0⟩).2 = 1 ∧
      vehicleState (loopStep 1000 initState ⟨true, 750, 0⟩).1 = VState.Stopped := by
  decide

/-- C5 as amended.  While `Idle`, if the switch activates in a cycle
whose light value is already below the threshold, rule 1 engages and
rule 3 disengages within that same cycle (the switch rules run before
the endpoint rule, so the `engage` precedes the `disengage`, the
elapsed-time diagnostic reads 0, and the cycle ends `Stopped`). -/
theorem c5_same_cycle (base : Nat) (s : CarState) (i : Input)
    (hrc : s.run_car = false) (hcc : s.color_change = false)
    (hsw : i.switchOn = true) (hl : i.light < threshold base) :
    (∃ mid, (loopStep base s i).2 =
        [Event.engage, Event.startDiag] ++ mid ++
          [Event.disengage, Event.endDiag 0]) ∧
      countEv Event.engage (loopStep base s i).2 = 1 ∧
      countEv Event.disengage (loopStep base s i).2 = 1 ∧
      vehicleState (loopStep base s i).1 = VState.Stopped := by
  have h1 : switchPhase s i =
      ({ s with run_car := true, run_time := i.now },
       [Event.engage, Event.startDiag]) := by
    simp [switchPhase, hrc, hcc, hsw]
  rw [loopStep_eq, h1]
  have hrc2 : (lightDebugPhase { s with run_car := true, run_time := i.now } i).1.run_car
      = true := lightDebugPhase_run_car _ i
  have hrt2 : (lightDebugPhase { s with run_car := true, run_time := i.now } i).1.run_time
      = i.now := lightDebugPhase_run_time _ i
  rw [endpointPhase_fires base _ i hrc2 hl, hrt2, usub32_self]
  refine ⟨⟨(lightDebugPhase { s with run_car := true, run_time := i.now } i).2, by simp⟩,
    ?_, ?_, rfl⟩ <;>
    rw [countEv_append, countEv_append,
      lightDebugPhase_count _ i _ (by simp)] <;>
    simp [countEv]

/-- C3.  Endpoint detection: from `Running` (with run-start timestamp
`t0` in `run_time`), a cycle with the light at or above threshold stays
`Running` with no `disengage` and `run_time` untouched; the next cycle
with the light below threshold transitions (once) to `Stopped`, calls
`disengage()` exactly once, emits the elapsed-time diagnostic
`endCycleTimestamp - runStartTimestamp`, and resets `run_time` to 0.
(The switch is on in both cycles; timestamps do not wrap.) -/
theorem c3_endpoint (base t0 : Nat) (s : CarState) (i1 i2 : Input)
    (hrc : s.run_car = true) (hcc : s.color_change = false)
    (hrt : s.run_time = t0)
    (hsw1 : i1.switchOn = true) (hl1 : ¬ i1.light < threshold base)
    (hsw2 : i2.switchOn = true) (hl2 : i2.light < threshold base)
    (hle : t0 ≤ i2.now) (hlt : i2.now < 2 ^ 32) :
    vehicleState (loopStep base s i1).1 = VState.Running ∧
      countEv Event.disengage (loopStep base s i1).2 = 0 ∧
      (loopStep base s i1).1.run_time = t0 ∧
      vehicleState (loopStep base (loopStep base s i1).1 i2).1 = VState.Stopped ∧
      countEv Event.disengage (loopStep base (loopStep base s i1).1 i2).2 = 1 ∧
      Event.endDiag (i2.now - t0) ∈ (loopStep base (loopStep base s i1).1 i2).2 ∧
      (loopStep base (loopStep base s i1).1 i2).1.run_time = 0 := by
  have h1 : switchPhase s i1 = (s, []) := by
    simp [switchPhase, hrc, hsw1]
  have e1 : loopStep base s i1 =
      ((lightDebugPhase s i1).1, [] ++ (lightDebugPhase s i1).2 ++ []) := by
    rw [loopStep_eq, h1, endpointPhase_high base _ i1 hl1]
  have hrc1 : (lightDebugPhase s i1).1.run_car = true :=
    (lightDebugPhase_run_car s i1).trans hrc
  have hcc1 : (lightDebugPhase s i1).1.color_change = false :=
    (lightDebugPhase_cc s i1).trans hcc
  have hrt1 : (lightDebugPhase s i1).1.run_time = t0 :=
    (lightDebugPhase_run_time s i1).trans hrt
  have h2 : switchPhase (lightDebugPhase s i1).1 i2 = ((lightDebugPhase s i1).1, []) := by
    simp [switchPhase, hrc1, hsw2]
  have hrc2 : (lightDebugPhase (lightDebugPhase s i1).1 i2).1.run_car = true :=
    (lightDebugPhase_run_car _ i2).trans hrc1
  have hrt2 : (lightDebugPhase (lightDebugPhase s i1).1 i2).1.run_time = t0 :=
    (lightDebugPhase_run_time _ i2).trans hrt1
  have e2 : loopStep base (lightDebugPhase s i1).1 i2 =
      ({ (lightDebugPhase (lightDebugPhase s i1).1 i2).1 with
          run_car := false, color_change := true, run_time := 0 },
       [] ++ (lightDebugPhase (lightDebugPhase s i1).1 i2).2 ++
         [Event.disengage, Event.endDiag (i2.now - t0)]) := by
    rw [loopStep_eq, h2, endpointPhase_fires base _ i2 hrc2 hl2, hrt2,
      usub32_eq_sub i2.now t0 hle hlt]
  rw [e1, e2]
  refine ⟨vehicleState_running _ hcc1 hrc1, ?_, hrt1,
    (vehicleState_eq_stopped _).mpr rfl, ?_, by simp, rfl⟩
  · rw [countEv_append, countEv_append, lightDebugPhase_count s i1 _ (by simp)]
    simp [countEv]
  · rw [countEv_append, countEv_append, lightDebugPhase_count _ i2 _ (by simp)]
    simp [countEv]

/-- Witness for C3 at baseline 1000: readings 900 then 700, run started
at `t0 = 10`, endpoint cycle at `now = 30`. -/
theorem c3_endpoint_witness :
    vehicleState (loopStep 1000 ⟨true, false, 10, 0⟩ ⟨true, 900, 20⟩).1 =
        VState.Running ∧
      countEv Event.disengage (loopStep 1000 ⟨true, false, 10, 0⟩ ⟨true, 900, 20⟩).2 = 0 ∧
      (loopStep 1000 ⟨true, false, 10, 0⟩ ⟨true, 900, 20⟩).1.run_time = 10 ∧
      vehicleState (loopStep 1000 (loopStep 1000 ⟨true, false, 10, 0⟩ ⟨true, 900, 20⟩).1
          ⟨true, 700, 30⟩).1 = VState.Stopped ∧
      countEv Event.disengage (loopStep 1000 (loopStep 1000 ⟨true, false, 10, 0⟩
          ⟨true, 900, 20⟩).1 ⟨true, 700, 30⟩).2 = 1 ∧
      Event.endDiag ((30 : Nat) - 10) ∈ (loopStep 1000 (loopStep 1000 ⟨true, false, 10, 0⟩
          ⟨true, 900, 20⟩).1 ⟨true, 700, 30⟩).2 ∧
      (loopStep 1000 (loopStep 1000 ⟨true, false, 10, 0⟩ ⟨true, 900, 20⟩).1
          ⟨true, 700, 30⟩).1.run_time = 0 :=
  c3_endpoint 1000 10 ⟨true, false, 10, 0⟩ ⟨true, 900, 20⟩ ⟨true, 700, 30⟩
    (by decide) (by decide) (by decide) (by decide) (by decide) (by decide)
    (by decide) (by decide) (by decide)

/-- C4.  Abort semantics: in any cycle with the switch off and the
state not `Stopped`, the machine ends the cycle in `Idle`, calls
`disengage()` exactly once, emits the "aborted" diagnostic exactly once
when the prior state was `Running` (and not at all otherwise — in
particular the rule still fires, with the `disengage`, from `Idle`),
and resets `run_time` to 0. -/
theorem c4_abort (base : Nat) (s : CarState) (i : Input)
    (hcc : s.color_change = false) (hsw : i.switchOn = false) :
    vehicleState (loopStep base s i).1 = VState.Idle ∧
      countEv Event.disengage (loopStep base s i).2 = 1 ∧
      countEv Event.abortDiag (loopStep base s i).2 =
        (if s.run_car then 1 else 0) ∧
      (loopStep base s i).1.run_time = 0 := by
  have h1 : switchPhase s i =
      ({ s with run_time := 0, run_car := false },
       (if s.run_car then [Event.abortDiag] else []) ++ [Event.disengage]) := by
    simp [switchPhase, hcc, hsw]
  rw [loopStep_eq, h1]
  have hrc1 : (lightDebugPhase { s with run_time := 0, run_car := false } i).1.run_car
      = false := lightDebugPhase_run_car _ i
  rw [endpointPhase_not_running base _ i hrc1]
  have hcc1 : (lightDebugPhase { s with run_time := 0, run_car := false } i).1.color_change
      = false := (lightDebugPhase_cc _ i).trans hcc
  refine ⟨vehicleState_idle _ hcc1 hrc1, ?_, ?_, lightDebugPhase_run_time _ i⟩ <;>
    rw [countEv_append, countEv_append, countEv_append,
      lightDebugPhase_count _ i _ (by simp)] <;>
    cases s.run_car <;> simp [countEv]

/-- Witness for C4 at baseline 1000, from `Running` with the switch
reading off. -/
theorem c4_abort_witness :
    vehicleState (loopStep 1000 ⟨true, false, 10, 0⟩ ⟨false, 1000, 20⟩).1 =
        VState.Idle ∧
      countEv Event.disengage (loopStep 1000 ⟨true, false, 10, 0⟩ ⟨false, 1000, 20⟩).2 = 1 ∧
      countEv Event.abortDiag (loopStep 1000 ⟨true, false, 10, 0⟩ ⟨false, 1000, 20⟩).2 =
        (if (⟨true, false, 10, 0⟩ : CarState).run_car then 1 else 0) ∧
      (loopStep 1000 ⟨true, false, 10, 0⟩ ⟨false, 1000, 20⟩).1.run_time = 0 :=
  c4_abort 1000 ⟨true, false, 10, 0⟩ ⟨false, 1000, 20⟩ (by decide) (by decide)

/-- C6.  Voltage noninterference: the whole control-loop trace (states
and every engage/disengage event) is the same for any two sessions that
differ only in the battery- and fuel-cell-rail samples; a low converted
rail voltage only drives the corresponding indicator low and emits the
corresponding diagnostic. -/
theorem c6_voltage_noninterference (sample : Nat → Nat)
    (n vb vp vb2 vp2 : Nat) (inputs : List Input) :
    (runSession sample n vb vp inputs).trace =
        (runSession sample n vb2 vp2 inputs).trace ∧
      (analogToV vb < vbat_ok →
        (runSession sample n vb vp inputs).health.batokHigh = false ∧
          (runSession sample n vb vp inputs).health.batDiag = true) ∧
      (analogToV vp < vpem_ok →
        (runSession sample n vb vp inputs).health.pemokHigh = false ∧
          (runSession sample n vb vp inputs).health.pemDiag = true) := by
  refine ⟨rfl, fun h => ?_, fun h => ?_⟩ <;>
    simp [runSession, voltageChecks, railFault, h]

/-- Witness for C6: raw sample 0 converts to 0 V, below both
thresholds; the trace is unchanged against raw samples 500/500. -/
theorem c6_voltage_noninterference_witness :
    (runSession (fun _ => 1000) 10 0 0 [⟨true, 1000, 0⟩]).trace =
        (runSession (fun _ => 1000) 10 500 500 [⟨true, 1000, 0⟩]).trace ∧
      (runSession (fun _ => 1000) 10 0 0 [⟨true, 1000, 0⟩]).health.batokHigh = false ∧
      (runSession (fun _ => 1000) 10 0 0 [⟨true, 1000, 0⟩]).health.batDiag = true ∧
      (runSession (fun _ => 1000) 10 0 0 [⟨true, 1000, 0⟩]).health.pemokHigh = false ∧
      (runSession (fun _ => 1000) 10 0 0 [⟨true, 1000, 0⟩]).health.pemDiag = true := by
  have h := c6_voltage_noninterference (fun _ => 1000) 10 0 0 500 500 [⟨true, 1000, 0⟩]
  have hb : analogToV 0 < vbat_ok := by
    norm_num [analogToV, div_const, vbat_ok]
  have hp : analogToV 0 < vpem_ok := by
    norm_num [analogToV, div_const, vpem_ok]
  exact ⟨h.1, (h.2.1 hb).1, (h.2.1 hb).2, (h.2.2 hp).1, (h.2.2 hp).2⟩

/-- C7.  Rail check boundary: for every raw sample, the startup check
drives the indicator low and emits the diagnostic iff the converted
voltage is strictly below its threshold (5.5 V battery, 7 V fuel
cell); a voltage exactly equal to a threshold does not fault. -/
theorem c7_rail_boundary (vb vp : Nat) (v w : ℚ) :
    ((voltageChecks vb vp).batokHigh = false ↔ analogToV vb < vbat_ok) ∧
      ((voltageChecks vb vp).batDiag = true ↔ analogToV vb < vbat_ok) ∧
      ((voltageChecks vb vp).pemokHigh = false ↔ analogToV vp < vpem_ok) ∧
      ((voltageChecks vb vp).pemDiag = true ↔ analogToV vp < vpem_ok) ∧
      (v = vbat_ok → railFault v vbat_ok = false) ∧
      (w = vpem_ok → railFault w vpem_ok = false) := by
  refine ⟨?_, ?_, ?_, ?_, fun hv => ?_, fun hw => ?_⟩ <;>
    simp_all [voltageChecks, railFault]

/-- Witness for C7 with raw samples 0 and converted voltages exactly at
the two thresholds. -/
theorem c7_rail_boundary_witness :
    ((voltageChecks 0 0).batokHigh = false ↔ analogToV 0 < vbat_ok) ∧
      ((voltageChecks 0 0).batDiag = true ↔ analogToV 0 < vbat_ok) ∧
      ((voltageChecks 0 0).pemokHigh = false ↔ analogToV 0 < vpem_ok) ∧
      ((voltageChecks 0 0).pemDiag = true ↔ analogToV 0 < vpem_ok) ∧
      railFault 5.5 vbat_ok = false ∧
      railFault 7 vpem_ok = false := by
  have h := c7_rail_boundary 0 0 5.5 7
  exact ⟨h.1, h.2.1, h.2.2.1, h.2.2.2.1,
    h.2.2.2.2.1 (by norm_num [vbat_ok]), h.2.2.2.2.2 (by norm_num [vpem_ok])⟩

/-- C8.  Calibration on constant input: if each of the `n > 0` samples
reads the same value `v`, the integer mean `sum/n` is exactly `v`. -/
theorem c8_calibrate_const (sample : Nat → Nat) (n v : Nat)
    (hs : ∀ i, i < n → sample i = v) (hn : 0 < n) :
    calibrate sample n = v := by
  unfold calibrate
  have hmap : (List.range n).map sample = List.replicate n v := by
    rw [List.eq_replicate_iff]
    refine ⟨by simp, fun b hb => ?_⟩
    rcases List.mem_map.mp hb with ⟨i, hi, rfl⟩
    exact hs i (List.mem_range.mp hi)
  rw [hmap, List.sum_replicate, smul_eq_mul, Nat.mul_div_cancel_left v hn]

/-- Witness for C8: ten samples of 1000 calibrate to exactly 1000. -/
theorem c8_calibrate_const_witness : calibrate (fun _ => 1000) 10 = 1000 :=
  c8_calibrate_const (fun _ => 1000) 10 1000 (fun _ _ => rfl) (by decide)

/-- C9.  Engage idempotence: `attachAndWrite` attaches each drive servo
only when it is not already attached, so from a detached state two
consecutive calls perform exactly one attach per servo — all of it in
the first call, none in the second. -/
theorem c9_engage_idempotent (a : DriveActuators)
    (h1 : a.servo1.attached = false) (h2 : a.servo2.attached = false) :
    (attachAndWrite a).2 = (1, 1) ∧
      (attachAndWrite (attachAndWrite a).1).2 = (0, 0) := by
  simp [attachAndWrite, h1, h2]

/-- Witness for C9 from fully detached, neutral actuators. -/
theorem c9_engage_idempotent_witness :
    (attachAndWrite ⟨⟨false, 90⟩, ⟨false, 90⟩, false⟩).2 = (1, 1) ∧
      (attachAndWrite (attachAndWrite ⟨⟨false, 90⟩, ⟨false, 90⟩, false⟩).1).2 = (0, 0) :=
  c9_engage_idempotent ⟨⟨false, 90⟩, ⟨false, 90⟩, false⟩ (by decide) (by decide)

/-- Witness for C5's amended theorem at baseline 1000, reading 750. -/
theorem c5_same_cycle_witness :
    (∃ mid, (loopStep 1000 initState ⟨true, 750, 4⟩).2 =
        [Event.engage, Event.startDiag] ++ mid ++
          [Event.disengage, Event.endDiag 0]) ∧
      countEv Event.engage (loopStep 1000 initState ⟨true, 750, 4⟩).2 = 1 ∧
      countEv Event.disengage (loopStep 1000 initState ⟨true, 750, 4⟩).2 = 1 ∧
      vehicleState (loopStep 1000 initState ⟨true, 750, 4⟩).1 = VState.Stopped :=
  c5_same_cycle 1000 initState ⟨true, 750, 4⟩ (by decide) (by decide) (by decide)
    (by decide)

end MotorController
